import Mathlib

/-!
Shallow embedding of the analytics / incident-inference engine of the
fleet-monitoring dashboard: device health scoring (`AnalyticsService.
calculateDeviceHealthScore`), performance metrics, anomaly detection,
predictive alerts, the network-incident engine
(`NetworkIncidentService`), the notification dispatcher
(`NotificationService`) and the timestamp normalizer (`parseTimestamp`).

Modelling conventions:
* JavaScript numbers are modelled as `ℚ` (all arithmetic in the source
  is exact at these magnitudes, far from any float rounding boundary);
  `Math.round` is `jsRound`.
* Instants (`Date`) are `Int` epoch milliseconds.  Log records carry
  timestamps already normalized by the timestamp normalizer (§4.1 of the
  spec); `parseTimestamp` itself is modelled separately, with the four
  `date-fns`/native parsing strategies abstracted as `Option`-valued
  functions (a strategy either yields a valid instant or fails).
* A JS optional number field (`voltage?: number`) is `Option ℚ`; the
  source's truthiness test `log.voltage` is `voltageTruthy` (undefined
  and 0 are falsy).  Optional strings are `Option String` with the
  empty string falsy, matching `||` chains in the source.
* `Array.prototype.sort` is stable; `sortByIntKey` reproduces it as the
  unique permutation sorted strictly by (key, original index).
* Free-text `description`/`recommendation` fields of anomalies and
  alerts (display strings built with `toFixed`) are not modelled; all
  decision-relevant fields (type, severity, value, threshold,
  probability, eta) are.
-/

attribute [local semireducible] Rat.mul Rat.inv Rat.add Rat.sub Rat.ofScientific

/-- `Math.round` of JavaScript on rationals: round half toward positive infinity. -/
def jsRound (q : ℚ) : ℤ := ⌊q + 1 / 2⌋

/-- Two-decimal rounding, as the source's `Math.round(x * 100) / 100`. -/
def round2 (q : ℚ) : ℚ := (jsRound (q * 100) : ℚ) / 100

/-- `Array.prototype.slice(-n)`: the last `n` elements. -/
def lastN (n : Nat) (l : List α) : List α := l.drop (l.length - n)

/-- Substring test on character lists (structural, kernel-evaluable). -/
def hasInfixCL : List Char → List Char → Bool
  | [], pat => pat.isEmpty
  | c :: rest, pat => pat.isPrefixOf (c :: rest) || hasInfixCL rest pat

/-- `String.prototype.toLowerCase` (ASCII case folding suffices for the keyword sets). -/
def lowerStr (s : String) : String := ⟨s.data.map Char.toLower⟩

/-- `s.includes(pat)`. -/
def strContains (s pat : String) : Bool := hasInfixCL s.data pat.data

/-- `o?.toLowerCase().includes(pat)`: substring test on an optional string,
false when the string is absent (optional chaining yields a falsy `undefined`). -/
def optContains (o : Option String) (pat : String) : Bool :=
  match o with
  | none => false
  | some s => strContains (lowerStr s) pat

/-- JS `||` on an optional string: the string when present and non-empty, else the default. -/
def jsOrStr (o : Option String) (dflt : String) : String :=
  match o with
  | none => dflt
  | some s => if s = "" then dflt else s

/-- Truthiness of a `voltage?: number` field: `undefined` and `0` are falsy. -/
def voltageTruthy : Option ℚ → Bool
  | none => false
  | some x => decide (x ≠ 0)

/-- First-occurrence de-duplication, the key order of a JS `Map` built by insertion. -/
def dedupKeys (l : List String) : List String :=
  l.foldl (fun acc k => if k ∈ acc then acc else acc ++ [k]) []

/-- Insertion into a list sorted strictly by `keyLt`. -/
def insSorted (keyLt : β → β → Bool) (x : β) : List β → List β
  | [] => [x]
  | y :: rest => if keyLt x y then x :: y :: rest else y :: insSorted keyLt x rest

/-- Insertion sort by a strict order. -/
def sortWith (keyLt : β → β → Bool) (l : List β) : List β :=
  l.foldr (insSorted keyLt) []

/-- Stable ascending sort by an integer key, as JS `sort((a, b) => key(a) - key(b))`
(stable per the ECMAScript spec): sort strictly by (key, original index). -/
def sortByIntKey (key : α → Int) (l : List α) : List α :=
  (sortWith
    (fun a b => decide (key a.2 < key b.2) ||
      (decide (key a.2 = key b.2) && decide (a.1 < b.1)))
    l.enum).map (·.2)

def msPerHour : Int := 3600000
def msPerDay : Int := 86400000

/-! ## Log records (`types/logs`: `IgnitionLog`, `ExceptionLog`) -/

/-- An ignition event; only the fields consumed by the embedded engine are carried. -/
structure IgnitionLog where
  deviceImei : String
  timestamp : Int
  voltage : Option ℚ
  deriving DecidableEq, Repr

/-- An exception event; `main` is the free-text category, `details` the detail text. -/
structure ExceptionLog where
  id : String
  deviceImei : String
  timestamp : Int
  main : Option String
  details : Option String
  deriving DecidableEq, Repr

/-! ## AnalyticsService.calculateDeviceHealthScore -/

structure HealthFactors where
  connectivity : ℤ
  batteryHealth : ℤ
  errorRate : ℤ
  uptime : ℤ
  deriving DecidableEq, Repr

structure DeviceHealthScore where
  imei : String
  score : ℤ
  factors : HealthFactors
  lastCalculated : Int
  deriving DecidableEq, Repr

/-- `deviceIgnitions.filter(log => log.voltage).map(log => log.voltage!)`. -/
def voltageReadingsOf (igns : List IgnitionLog) : List ℚ :=
  (igns.filter (fun l => voltageTruthy l.voltage)).map (fun l => l.voltage.getD 0)

/-- `AnalyticsService.calculateDeviceHealthScore`.  `recentLogs` concatenates the
device's ignition and exception records and only their timestamps are consumed
downstream, so it is modelled as the timestamp list.  Note the source applies
the 24-hour `dayAgo` filter to `recentLogs`, which is already restricted to the
last hour. -/
def calculateDeviceHealthScore (now : Int) (imei : String)
    (ignitionLogs : List IgnitionLog) (exceptionLogs : List ExceptionLog) :
    DeviceHealthScore :=
  let deviceIgnitions := ignitionLogs.filter (fun l => l.deviceImei = imei)
  let deviceExceptions := exceptionLogs.filter (fun l => l.deviceImei = imei)
  let allTs := deviceIgnitions.map (·.timestamp) ++ deviceExceptions.map (·.timestamp)
  let recentLogs := allTs.filter (fun t => decide (t > now - msPerHour))
  let connectivity : ℚ := min 100 (10 * recentLogs.length)
  let voltageReadings := lastN 10 (voltageReadingsOf deviceIgnitions)
  let avgVoltage : ℚ :=
    if voltageReadings.length > 0 then voltageReadings.sum / voltageReadings.length
    else 12
  let batteryHealth : ℚ := max 0 (min 100 (avgVoltage / 12.6 * 100))
  let totalLogs := deviceIgnitions.length + deviceExceptions.length
  let errorRate : ℚ :=
    if totalLogs > 0 then max 0 (100 - ((deviceExceptions.length : ℚ) / totalLogs) * 100)
    else 100
  let recentActivity := recentLogs.filter (fun t => decide (t > now - msPerDay))
  let uptime : ℚ := min 100 (5 * recentActivity.length)
  let score := jsRound (connectivity * 0.3 + batteryHealth * 0.25 + errorRate * 0.25 + uptime * 0.2)
  { imei := imei, score := score,
    factors :=
      { connectivity := jsRound connectivity, batteryHealth := jsRound batteryHealth,
        errorRate := jsRound errorRate, uptime := jsRound uptime },
    lastCalculated := now }

/-- Modelled from the spec: `uptime = min(100, 5 × count(events in last 24 hours))`
(§4.2 of the spec) for the device's combined ignition/exception events. -/
def specUptimeFactor (now : Int) (imei : String)
    (ignitionLogs : List IgnitionLog) (exceptionLogs : List ExceptionLog) : ℚ :=
  let ts := (ignitionLogs.filter (fun l => l.deviceImei = imei)).map (·.timestamp) ++
    (exceptionLogs.filter (fun l => l.deviceImei = imei)).map (·.timestamp)
  min 100 (5 * (ts.filter (fun t => decide (t > now - msPerDay))).length)

/-! ## AnalyticsService.calculateDevicePerformanceMetrics -/

structure DevicePerformanceMetrics where
  imei : String
  uptime : ℚ
  mtbf : ℚ
  totalExceptions : ℕ
  criticalExceptions : ℕ
  lastSeen : Int
  averageVoltage : ℚ
  locationAccuracy : ℚ
  deriving DecidableEq, Repr

/-- The failure predicate of `calculateDevicePerformanceMetrics`: the category
text contains "server down", "connection timeout" or "error" (case-insensitive). -/
def isFailureLog (log : ExceptionLog) : Bool :=
  optContains log.main "server down" || optContains log.main "connection timeout" ||
    optContains log.main "error"

/-- Hour bucket of an instant.  The source buckets by the local-calendar hour
(`format(date, 'yyyy-MM-dd-HH')`); counting distinct buckets is the same as
counting distinct epoch-hour indices under a fixed UTC offset. -/
def hourBucket (t : Int) : Int := t.fdiv msPerHour

/-- `AnalyticsService.calculateDevicePerformanceMetrics`.  `lastSeen` is the
head of the timestamp-descending (stable) sort, i.e. the maximal timestamp,
defaulting to `now` for an empty log set. -/
def calculateDevicePerformanceMetrics (now : Int) (imei : String)
    (ignitionLogs : List IgnitionLog) (exceptionLogs : List ExceptionLog) :
    DevicePerformanceMetrics :=
  let deviceIgnitions := ignitionLogs.filter (fun l => l.deviceImei = imei)
  let deviceExceptions := exceptionLogs.filter (fun l => l.deviceImei = imei)
  let totalHours : ℚ := 24 * 7
  let allTs := deviceIgnitions.map (·.timestamp) ++ deviceExceptions.map (·.timestamp)
  let activeHours :=
    (((allTs.filter (fun t => decide (t > now - 7 * msPerDay))).map hourBucket).dedup).length
  let uptime : ℚ := ((activeHours : ℚ) / totalHours) * 100
  let failures := deviceExceptions.filter isFailureLog
  let mtbf : ℚ := if failures.length > 1 then totalHours / failures.length else totalHours
  let lastSeen : Int := match allTs with | [] => now | t :: ts => ts.foldl max t
  let voltageReadings := voltageReadingsOf deviceIgnitions
  let averageVoltage : ℚ :=
    if voltageReadings.length > 0 then voltageReadings.sum / voltageReadings.length else 0
  { imei := imei, uptime := round2 uptime, mtbf := round2 mtbf,
    totalExceptions := deviceExceptions.length, criticalExceptions := failures.length,
    lastSeen := lastSeen, averageVoltage := round2 averageVoltage, locationAccuracy := 95 }

/-- Modelled from the spec's claim wording (C7): failure = exception whose
category text contains "server down", "timeout", or "error" (case-insensitive
substring match). -/
def claimIsFailure (log : ExceptionLog) : Bool :=
  optContains log.main "server down" || optContains log.main "timeout" ||
    optContains log.main "error"

/-! ## AnalyticsService.detectAnomalies -/

inductive AnomalyType
  | voltage_drop
  | frequent_restarts
  deriving DecidableEq, Repr

inductive AnomalySeverity
  | low
  | medium
  | high
  | critical
  deriving DecidableEq, Repr

structure Anomaly where
  id : String
  imei : String
  type : AnomalyType
  severity : AnomalySeverity
  detectedAt : Int
  value : ℚ
  threshold : ℚ
  deriving DecidableEq, Repr

/-- Device keys of the `deviceGroups` map in source insertion order:
ignition devices first, then exception-only devices. -/
def deviceKeys (ignitionLogs : List IgnitionLog) (exceptionLogs : List ExceptionLog) :
    List String :=
  dedupKeys (ignitionLogs.map (·.deviceImei) ++ exceptionLogs.map (·.deviceImei))

/-- The per-device body of `detectAnomalies`: voltage-drop detection on the
last 5 truthy voltage readings, then restart-storm detection on the last hour. -/
def anomaliesForDevice (now : Int) (imei : String)
    (ignitions : List IgnitionLog) (exceptions : List ExceptionLog) : List Anomaly :=
  let recentVoltages :=
    (lastN 5 (ignitions.filter (fun l => voltageTruthy l.voltage))).map
      (fun l => l.voltage.getD 0)
  let voltAnoms : List Anomaly :=
    if recentVoltages.length ≥ 3 then
      let avgVoltage := recentVoltages.sum / recentVoltages.length
      if avgVoltage < 11.5 then
        [{ id := "voltage_" ++ imei ++ "_" ++ toString now, imei := imei,
           type := .voltage_drop,
           severity := if avgVoltage < 11 then .critical else .high,
           detectedAt := now, value := avgVoltage, threshold := 11.5 }]
      else []
    else []
  let recentExceptions := exceptions.filter (fun l => decide (l.timestamp > now - msPerHour))
  let restartAnoms : List Anomaly :=
    if recentExceptions.length > 5 then
      [{ id := "restarts_" ++ imei ++ "_" ++ toString now, imei := imei,
         type := .frequent_restarts, severity := .high,
         detectedAt := now, value := (recentExceptions.length : ℚ), threshold := 5 }]
    else []
  voltAnoms ++ restartAnoms

/-- `AnalyticsService.detectAnomalies`: group logs by device, then detect per device. -/
def detectAnomalies (now : Int)
    (ignitionLogs : List IgnitionLog) (exceptionLogs : List ExceptionLog) : List Anomaly :=
  (deviceKeys ignitionLogs exceptionLogs).flatMap (fun imei =>
    anomaliesForDevice now imei
      (ignitionLogs.filter (fun l => l.deviceImei = imei))
      (exceptionLogs.filter (fun l => l.deviceImei = imei)))

/-! ## AnalyticsService.generatePredictiveAlerts and calculateVoltageTrend -/

structure VoltageReading where
  voltage : ℚ
  timestamp : Int
  deriving DecidableEq, Repr

/-- `AnalyticsService.calculateVoltageTrend`: ordinary-least-squares slope of
voltage against reading index (the source's `reduce`-with-index sums). -/
def calculateVoltageTrend (readings : List VoltageReading) : ℚ :=
  if readings.length < 2 then 0
  else
    let n : ℚ := readings.length
    let idx := (List.range readings.length).map (fun i => (i : ℚ))
    let sumX := idx.sum
    let sumY := (readings.map (·.voltage)).sum
    let sumXY := ((idx.zip (readings.map (·.voltage))).map (fun p => p.1 * p.2)).sum
    let sumXX := (idx.map (fun x => x * x)).sum
    (n * sumXY - sumX * sumY) / (n * sumXX - sumX * sumX)

inductive AlertType
  | battery_failure
  | connection_degradation
  deriving DecidableEq, Repr

structure PredictiveAlert where
  id : String
  imei : String
  type : AlertType
  probability : ℚ
  estimatedTimeToFailure : ℚ
  createdAt : Int
  deriving DecidableEq, Repr

/-- The connection-issue predicate of the degradation branch. -/
def isConnectionIssue (log : ExceptionLog) : Bool :=
  optContains log.main "connection" || optContains log.main "timeout" ||
    optContains log.main "server"

/-- The per-device body of `generatePredictiveAlerts`: battery-failure
projection from the voltage trend, then connection-degradation counting. -/
def alertsForDevice (now : Int) (imei : String)
    (ignitions : List IgnitionLog) (exceptions : List ExceptionLog) : List PredictiveAlert :=
  let voltageReadings :=
    sortByIntKey (fun r => r.timestamp)
      ((lastN 10 (ignitions.filter (fun l => voltageTruthy l.voltage))).map
        (fun l => VoltageReading.mk (l.voltage.getD 0) l.timestamp))
  let batteryAlerts : List PredictiveAlert :=
    if voltageReadings.length ≥ 5 then
      let trend := calculateVoltageTrend voltageReadings
      if trend < -0.1 then
        let currentVoltage := ((voltageReadings.getLast?).map (·.voltage)).getD 0
        let estimatedFailureTime := (currentVoltage - 10.5) / |trend|
        if estimatedFailureTime < 72 then
          [{ id := "battery_" ++ imei ++ "_" ++ toString now, imei := imei,
             type := .battery_failure,
             probability := min 95 (max 20 (100 - estimatedFailureTime / 72 * 100)),
             estimatedTimeToFailure := max 1 estimatedFailureTime, createdAt := now }]
        else []
      else []
    else []
  let recentExceptions :=
    (exceptions.filter (fun l => decide (l.timestamp > now - 3 * msPerDay))).filter
      isConnectionIssue
  let connAlerts : List PredictiveAlert :=
    if recentExceptions.length > 10 then
      [{ id := "connection_" ++ imei ++ "_" ++ toString now, imei := imei,
         type := .connection_degradation,
         probability := min 90 (((recentExceptions.length : ℚ) / 20) * 100),
         estimatedTimeToFailure := 24, createdAt := now }]
    else []
  batteryAlerts ++ connAlerts

/-- `AnalyticsService.generatePredictiveAlerts`. -/
def generatePredictiveAlerts (now : Int)
    (ignitionLogs : List IgnitionLog) (exceptionLogs : List ExceptionLog) :
    List PredictiveAlert :=
  (deviceKeys ignitionLogs exceptionLogs).flatMap (fun imei =>
    alertsForDevice now imei
      (ignitionLogs.filter (fun l => l.deviceImei = imei))
      (exceptionLogs.filter (fun l => l.deviceImei = imei)))

/-- Voltage standardization: a non-truthy voltage (`undefined` or `0`) is
canonicalized to `none`.  Two logs with the same standardization are
indistinguishable to every truthiness-based voltage selection. -/
def stdVolt (v : Option ℚ) : Option ℚ := if voltageTruthy v then v else none

/-- Standardize the voltage field of a log, keeping all other fields. -/
def stdLog (l : IgnitionLog) : IgnitionLog := { l with voltage := stdVolt l.voltage }

/-! ## NetworkIncidentService: event extraction -/

inductive NetEventType
  | outage
  | recovery
  | timeout
  deriving DecidableEq, Repr

structure NetworkEvent where
  id : String
  deviceImei : String
  timestamp : Int
  eventType : NetEventType
  details : String
  deriving DecidableEq, Repr

/-- The keyword classification of `extractNetworkEvents`: outage keywords
first, then recovery, then timeout; `none` when no set matches. -/
def classifyNetworkEvent (log : ExceptionLog) : Option NetEventType :=
  let details := lowerStr (log.details.getD "")
  let main := lowerStr (log.main.getD "")
  if strContains main "server down" || strContains details "server unavailable" ||
      strContains details "connection failed" || strContains details "network error" then
    some .outage
  else if strContains main "server up" || strContains main "connection restored" ||
      strContains main "network restored" || strContains details "server available" ||
      strContains details "connection established" || strContains details "back online" ||
      strContains details "connectivity restored" then
    some .recovery
  else if strContains main "timeout" || strContains details "timeout" ||
      strContains main "retry" || strContains details "attempting reconnection" then
    some .timeout
  else none

/-- `NetworkIncidentService.extractNetworkEvents`: classify each exception log
and sort the resulting events by timestamp ascending (stable). -/
def extractNetworkEvents (exceptionLogs : List ExceptionLog) : List NetworkEvent :=
  sortByIntKey (fun e => e.timestamp)
    (exceptionLogs.filterMap (fun log =>
      (classifyNetworkEvent log).map (fun et =>
        { id := log.id, deviceImei := log.deviceImei, timestamp := log.timestamp,
          eventType := et,
          details := jsOrStr log.details (jsOrStr log.main "Network event detected") })))

/-! ## NetworkIncidentService: incident grouping -/

inductive IncidentStatus
  | ongoing
  | resolved
  deriving DecidableEq, Repr

inductive IncidentSeverity
  | critical
  | high
  | medium
  deriving DecidableEq, Repr

/-- Recovery-pattern classification; `partialPat` stands for the source's
third pattern value (the grouping's "partial" recovery). -/
inductive RecoveryPatternKind
  | simultaneous
  | gradual
  | partialPat
  deriving DecidableEq, Repr

structure NetworkIncident where
  id : String
  startTime : Int
  endTime : Option Int
  duration : Option Int
  status : IncidentStatus
  affectedDevices : List String
  recoveredDevices : List String
  severity : IncidentSeverity
  impactLevel : Int
  recoveryPattern : RecoveryPatternKind
  deriving DecidableEq, Repr

/-- `NetworkIncidentService.determineRecoveryPattern`. -/
def determineRecoveryPattern (incident : NetworkIncident) : RecoveryPatternKind :=
  if incident.recoveredDevices.length = 0 then .simultaneous
  else
    let recoveryRate : ℚ :=
      (incident.recoveredDevices.length : ℚ) / incident.affectedDevices.length
    if recoveryRate = 1 then .simultaneous
    else if recoveryRate > 0.8 then .gradual
    else .partialPat

/-- The mutable working state of `groupEventsIntoIncidents`: the incident list,
the per-device outage-start map (insertion-ordered association list), and the
"current incident" pointer, modelled as an index into the incident list (the
source holds an object reference aliasing an entry of the list). -/
structure GroupState where
  incidents : List NetworkIncident
  deviceOutages : List (String × Int)
  currentIncident : Option Nat
  deriving DecidableEq, Repr

def initGroupState : GroupState := { incidents := [], deviceOutages := [], currentIncident := none }

/-- JS `Map.set`: update in place when the key exists, else append. -/
def assocSet : List (String × Int) → String → Int → List (String × Int)
  | [], k, v => [(k, v)]
  | (k', v') :: rest, k, v =>
    if k' = k then (k, v) :: rest else (k', v') :: assocSet rest k v

/-- JS `Map.get`. -/
def assocGet : List (String × Int) → String → Option Int
  | [], _ => none
  | (k', v') :: rest, k => if k' = k then some v' else assocGet rest k

/-- JS `Map.delete`. -/
def assocDel : List (String × Int) → String → List (String × Int)
  | [], _ => []
  | (k', v') :: rest, k => if k' = k then rest else (k', v') :: assocDel rest k

/-- In-place update of a list element (mutation through an aliased reference). -/
def updateAt : List α → Nat → (α → α) → List α
  | [], _, _ => []
  | a :: rest, 0, f => f a :: rest
  | a :: rest, n + 1, f => a :: updateAt rest n f

/-- Index of the first element satisfying `p` (JS `Array.prototype.find`). -/
def findIdxP (p : α → Bool) : List α → Option Nat
  | [] => none
  | a :: rest => if p a then some 0 else (findIdxP p rest).map (· + 1)

/-- `5 * 60 * 1000`: outages within 5 minutes of the current incident's start
are grouped into it. -/
def INCIDENT_WINDOW : Int := 5 * 60 * 1000

/-- A freshly opened incident.  The source's id is built from the wall clock
and a random suffix; it is modelled by the (unique) list position.  No claim
depends on id values. -/
def newIncident (e : NetworkEvent) (k : Nat) : NetworkIncident :=
  { id := "incident_" ++ toString k,
    startTime := e.timestamp, endTime := none, duration := none, status := .ongoing,
    affectedDevices := [e.deviceImei], recoveredDevices := [],
    severity := .critical, impactLevel := 0, recoveryPattern := .simultaneous }

/-- Resolution check of the recovery branch: when every affected device has
recovered, mark resolved, set `endTime` and the rounded minute duration. -/
def resolveCheck (t : Int) (inc : NetworkIncident) : NetworkIncident :=
  if inc.recoveredDevices.length = inc.affectedDevices.length then
    { inc with
      status := .resolved,
      endTime := some t,
      duration := some (jsRound (((t - inc.startTime : ℤ) : ℚ) / 60000)) }
  else inc

/-- The mutation applied to the incident found for a recovery event: add the
device to the recovered set (idempotent), run the resolution check, then
recompute the recovery pattern. -/
def applyRecovery (t : Int) (d : String) (inc : NetworkIncident) : NetworkIncident :=
  let inc1 :=
    if inc.recoveredDevices.contains d then inc
    else { inc with recoveredDevices := inc.recoveredDevices ++ [d] }
  let inc2 := resolveCheck t inc1
  { inc2 with recoveryPattern := determineRecoveryPattern inc2 }

/-- The mutation applied to the current incident for an in-window outage:
add the device to the affected set (idempotent). -/
def addAffected (d : String) (inc : NetworkIncident) : NetworkIncident :=
  if inc.affectedDevices.contains d then inc
  else { inc with affectedDevices := inc.affectedDevices ++ [d] }

/-- One iteration of the `events.forEach` loop of `groupEventsIntoIncidents`.
Outage: record the outage start; open a new incident when there is no current
incident or the event is more than `INCIDENT_WINDOW` past the current
incident's start (note: the current incident's status is NOT consulted),
else add the device to the current incident.  Recovery: if the device has a
recorded outage start, update the first ongoing incident containing it, then
clear the recorded outage start.  Timeout events change nothing.
(The source also back-assigns `event.incidentId`; events are not mutated
here and no claim depends on that back-reference.) -/
def stepEvent (st : GroupState) (e : NetworkEvent) : GroupState :=
  match e.eventType with
  | .outage =>
    let outs := assocSet st.deviceOutages e.deviceImei e.timestamp
    let cur? := st.currentIncident.bind (fun i =>
      (st.incidents.get? i).map (fun inc => (i, inc)))
    match cur? with
    | some (i, cur) =>
      if e.timestamp - cur.startTime > INCIDENT_WINDOW then
        { incidents := st.incidents ++ [newIncident e st.incidents.length],
          deviceOutages := outs, currentIncident := some st.incidents.length }
      else
        { incidents := updateAt st.incidents i (addAffected e.deviceImei),
          deviceOutages := outs, currentIncident := st.currentIncident }
    | none =>
      { incidents := st.incidents ++ [newIncident e st.incidents.length],
        deviceOutages := outs, currentIncident := some st.incidents.length }
  | .recovery =>
    match assocGet st.deviceOutages e.deviceImei with
    | none => st
    | some _ =>
      let incs :=
        match findIdxP
            (fun inc => inc.affectedDevices.contains e.deviceImei &&
              inc.status == IncidentStatus.ongoing) st.incidents with
        | none => st.incidents
        | some i => updateAt st.incidents i (applyRecovery e.timestamp e.deviceImei)
      { incidents := incs,
        deviceOutages := assocDel st.deviceOutages e.deviceImei,
        currentIncident := st.currentIncident }
  | .timeout => st

/-- `getTotalDeviceCount`: the configured/estimated fleet size. -/
def totalDeviceCount : ℕ := 10

/-- The finalize pass over grouped incidents: set the impact percentage
(rounded, NOT clamped) and derive severity from impact and duration.
A missing (`undefined`) duration is falsy in the source's
`incident.duration && incident.duration > k` tests. -/
def finalizeIncident (inc : NetworkIncident) : NetworkIncident :=
  let impact := jsRound ((inc.affectedDevices.length : ℚ) / (totalDeviceCount : ℚ) * 100)
  let durGT : Int → Bool := fun k =>
    match inc.duration with
    | some d => decide (d > k)
    | none => false
  let severity :=
    if decide (impact > 50) || durGT 30 then IncidentSeverity.critical
    else if decide (impact > 20) || durGT 10 then IncidentSeverity.high
    else IncidentSeverity.medium
  { inc with impactLevel := impact, severity := severity }

/-- `NetworkIncidentService.groupEventsIntoIncidents`: the single left-to-right
pass, then the finalize pass. -/
def groupEventsIntoIncidents (events : List NetworkEvent) : List NetworkIncident :=
  ((events.foldl stepEvent initGroupState).incidents).map finalizeIncident

/-- Incidents after processing only the first `n` events ("at every point
during the grouping pass"). -/
def incidentsAfter (events : List NetworkEvent) (n : ℕ) : List NetworkIncident :=
  ((events.take n).foldl stepEvent initGroupState).incidents

structure RecoveryMetrics where
  totalOutages : ℕ
  averageOutageDuration : ℤ
  longestOutage : ℤ
  shortestOutage : ℤ
  recoveryRate : ℤ
  frequentlyAffectedDevices : List String
  recoveryPatterns : ℕ × ℕ × ℕ
  deriving DecidableEq, Repr

/-- `NetworkIncidentService.calculateRecoveryMetrics`.  The device counter map
iterates in first-appearance order; the frequency sort is descending and
stable; `recoveryPatterns` is the (simultaneous, gradual, partial) triple. -/
def calculateRecoveryMetrics (incidents : List NetworkIncident) : RecoveryMetrics :=
  let resolvedIncidents := incidents.filter (fun inc => inc.status == IncidentStatus.resolved)
  let durations : List ℤ := resolvedIncidents.map (fun inc => inc.duration.getD 0)
  let allAffected := incidents.flatMap (·.affectedDevices)
  let counts := (dedupKeys allAffected).map (fun d => (d, allAffected.count d))
  let frequentlyAffectedDevices :=
    ((sortByIntKey (fun p => -(p.2 : Int)) (counts.filter (fun p => decide (p.2 > 2)))).take 5).map
      (·.1)
  let pats := incidents.map (·.recoveryPattern)
  { totalOutages := incidents.length,
    averageOutageDuration :=
      if durations.length > 0 then jsRound ((durations.sum : ℚ) / durations.length) else 0,
    longestOutage := match durations with | [] => 0 | d :: ds => ds.foldl max d,
    shortestOutage := match durations with | [] => 0 | d :: ds => ds.foldl min d,
    recoveryRate :=
      if resolvedIncidents.length > 0 then
        jsRound ((resolvedIncidents.length : ℚ) / incidents.length * 100)
      else 0,
    frequentlyAffectedDevices := frequentlyAffectedDevices,
    recoveryPatterns :=
      (pats.count .simultaneous, pats.count .gradual, pats.count .partialPat) }

/-- `NetworkIncidentService.analyzeNetworkEvents`: extraction, grouping,
metrics.  The first component is the incident list. -/
def analyzeNetworkEvents (exceptionLogs : List ExceptionLog) :
    List NetworkIncident × List NetworkEvent × RecoveryMetrics :=
  let networkEvents := extractNetworkEvents exceptionLogs
  let incidents := groupEventsIntoIncidents networkEvents
  (incidents, networkEvents, calculateRecoveryMetrics incidents)

/-! ## NotificationService -/

inductive NotifType
  | critical
  | warning
  | info
  deriving DecidableEq, Repr

structure AlertNotification where
  id : String
  type : NotifType
  title : String
  message : String
  imei : Option String
  timestamp : Int
  acknowledged : Bool
  acknowledgedBy : Option String
  acknowledgedAt : Option Int
  deriving DecidableEq, Repr

/-- The dispatcher state: the bounded notification list (newest first) and the
global enabled flag.  Browser/audio side effects and the subscriber set are
external delivery concerns; they never read back into this state. -/
structure NotificationState where
  notifications : List AlertNotification
  isEnabled : Bool
  deriving DecidableEq, Repr

def initialNotificationState : NotificationState := { notifications := [], isEnabled := true }

/-- `NotificationService.addNotification`: no-op when disabled, else prepend
and truncate to the most recent 100.  The source constructs the record from
the payload plus a generated id and the wall clock; the constructed record is
taken as the argument. -/
def addNotification (n : AlertNotification) (s : NotificationState) : NotificationState :=
  if !s.isEnabled then s
  else { s with notifications := ((n :: s.notifications).take 100) }

/-- `NotificationService.acknowledgeNotification` on the list: find the first
notification with the id; when it exists and is not yet acknowledged, set the
acknowledgement fields; otherwise change nothing. -/
def ackList (nid who : String) (now : Int) : List AlertNotification → List AlertNotification
  | [] => []
  | n :: rest =>
    if n.id = nid then
      (if n.acknowledged then n
       else { n with
              acknowledged := true,
              acknowledgedBy := some who,
              acknowledgedAt := some now }) :: rest
    else n :: ackList nid who now rest

/-- `NotificationService.acknowledgeNotification`. -/
def acknowledgeNotification (nid who : String) (now : Int) (s : NotificationState) :
    NotificationState :=
  { s with notifications := ackList nid who now s.notifications }

/-- Fold a batch of additions (repeated `addNotification` calls in order). -/
def addAll (l : List AlertNotification) (s : NotificationState) : NotificationState :=
  l.foldl (fun st n => addNotification n st) s

/-- A concrete distinct notification per index, for the eviction scenario. -/
def mkNotif (i : Nat) : AlertNotification :=
  { id := toString i, type := .info, title := "t", message := "m", imei := none,
    timestamp := 0, acknowledged := false, acknowledgedBy := none, acknowledgedAt := none }

/-! ## Timestamp normalizer (`parseTimestamp`) -/

/-- The input of `parseTimestamp`: `null`/`undefined`, a `Date` (valid or
invalid), or a string. -/
inductive TimestampInput
  | nullTs
  | dateVal (valid : Bool) (t : Int)
  | strVal (s : String)
  deriving DecidableEq, Repr

/-- The four string-parsing strategies (ISO-8601, `dd/MM/yyyy HH:mm:ss.SSS`,
`dd/MM/yyyy HH:mm:ss`, native `Date` parsing).  Each external parser either
produces a valid instant or fails: a `try`/`catch` around a parse followed by
an `isValid` test collapses to an `Option`. -/
structure ParseStrategies where
  parseIso : String → Option Int
  parseDdMmYyyyMs : String → Option Int
  parseDdMmYyyy : String → Option Int
  parseNative : String → Option Int

/-- `parseTimestamp` of `dateUtils`: missing/falsy input (including the empty
string) falls back to `now`; a valid `Date` passes through; an invalid `Date`
falls back; a string tries the four strategies in order, first success wins,
and falls back to `now` when all fail.  Total by construction: every input
yields an instant. -/
def parseTimestamp (now : Int) (st : ParseStrategies) : TimestampInput → Int
  | .nullTs => now
  | .dateVal valid t => if valid then t else now
  | .strVal s =>
    if s = "" then now
    else
      match st.parseIso s with
      | some t => t
      | none =>
        match st.parseDdMmYyyyMs s with
        | some t => t
        | none =>
          match st.parseDdMmYyyy s with
          | some t => t
          | none =>
            match st.parseNative s with
            | some t => t
            | none => now

/-- Strategies that always fail, for witnesses. -/
def failingStrategies : ParseStrategies :=
  { parseIso := fun _ => none, parseDdMmYyyyMs := fun _ => none,
    parseDdMmYyyy := fun _ => none, parseNative := fun _ => none }

/-! ## Concrete inputs for counterexamples and witnesses -/

/-- C3 scenario: device A fails at t=0 and recovers at t=60000 (resolving the
incident), then device B fails at t=120000, inside the 5-minute window. -/
def c3log1 : ExceptionLog :=
  { id := "e1", deviceImei := "A", timestamp := 0, main := some "Server Down", details := none }

def c3log2 : ExceptionLog :=
  { id := "e2", deviceImei := "A", timestamp := 60000, main := some "Server Up", details := none }

def c3log3 : ExceptionLog :=
  { id := "e3", deviceImei := "B", timestamp := 120000, main := some "Server Down", details := none }

def c3logs : List ExceptionLog := [c3log1, c3log2, c3log3]

/-- C4 scenario: 11 distinct devices all report "Server Down" at the same instant. -/
def c4logs : List ExceptionLog :=
  (List.range 11).map (fun k =>
    { id := "o" ++ toString k, deviceImei := "D" ++ toString k, timestamp := 0,
      main := some "Server Down", details := none })

/-- C5 scenario: a single ignition event 2 hours before `c5now` (inside the
last 24 hours, outside the last hour). -/
def c5now : Int := 100000000

def c5log : IgnitionLog :=
  { deviceImei := "A", timestamp := c5now - 2 * msPerHour, voltage := none }

/-- C6 scenario: voltages 12.4, 12.2, 12.0, 11.8, 11.6 at successive indices. -/
def c6logs : List IgnitionLog :=
  [ { deviceImei := "V", timestamp := 0, voltage := some (62/5) },
    { deviceImei := "V", timestamp := 1, voltage := some (61/5) },
    { deviceImei := "V", timestamp := 2, voltage := some 12 },
    { deviceImei := "V", timestamp := 3, voltage := some (59/5) },
    { deviceImei := "V", timestamp := 4, voltage := some (58/5) } ]

def c6readings : List VoltageReading :=
  c6logs.map (fun l => VoltageReading.mk (l.voltage.getD 0) l.timestamp)

/-- C7 scenario: exceptions whose category "Read Timeout" contains "timeout"
but none of the source's failure keywords. -/
def c7log (k : Nat) : ExceptionLog :=
  { id := "x" ++ toString k, deviceImei := "A", timestamp := 0,
    main := some "Read Timeout", details := none }

/-- C2 witness scenario: a single outage for device "W". -/
def c2log : ExceptionLog :=
  { id := "w1", deviceImei := "W", timestamp := 0, main := some "Server Down", details := none }

/-- The resolved incident after the first two events of the C3 scenario. -/
def c3inc : NetworkIncident :=
  { id := "incident_0", startTime := 0, endTime := some 60000, duration := some 1,
    status := .resolved, affectedDevices := ["A"], recoveredDevices := ["A"],
    severity := .critical, impactLevel := 0, recoveryPattern := .simultaneous }

/-! ## Claim theorems -/

/-- C1, counterexample: for a device with zero ignition and zero exception
events, `calculateDeviceHealthScore` returns score 49, not 45 as claimed
(battery health defaults to 12.0/12.6·100 ≈ 95.24, weighted 0.25, plus the
error-rate default 100 weighted 0.25: round(48.81) = 49). -/
theorem claim_C1_counterexample :
    (calculateDeviceHealthScore 0 "A" [] []).score = 49 ∧
      ¬ (calculateDeviceHealthScore 0 "A" [] []).score = 45 := by
  decide

/-- C1, amended: for every device with zero ignition events and zero exception
events, the score is exactly 49, with factors connectivity 0, battery health
95 (round of 2000/21), error rate 100, uptime 0. -/
theorem claim_C1_theorem (now : Int) (imei : String)
    (ignitionLogs : List IgnitionLog) (exceptionLogs : List ExceptionLog)
    (hIgn : ignitionLogs.filter (fun l => l.deviceImei = imei) = [])
    (hExc : exceptionLogs.filter (fun l => l.deviceImei = imei) = []) :
    (calculateDeviceHealthScore now imei ignitionLogs exceptionLogs).score = 49 ∧
      (calculateDeviceHealthScore now imei ignitionLogs exceptionLogs).factors =
        HealthFactors.mk 0 95 100 0 := by
  simp only [calculateDeviceHealthScore, hIgn, hExc, List.map_nil, List.append_nil,
    List.filter_nil, List.length_nil, voltageReadingsOf, lastN, List.drop_nil]
  refine ⟨?_, ?_⟩ <;> decide

/-- C1, witness for the amended theorem at a concrete empty-log device. -/
theorem claim_C1_witness :
    ((([] : List IgnitionLog).filter (fun l => l.deviceImei = "A") = []) ∧
        (([] : List ExceptionLog).filter (fun l => l.deviceImei = "A") = [])) ∧
      (calculateDeviceHealthScore 7 "A" [] []).score = 49 :=
  ⟨⟨rfl, rfl⟩, (claim_C1_theorem 7 "A" [] [] rfl rfl).1⟩

/-- C3, counterexample: device A's outage at t=0 is resolved by its recovery
at t=60000, yet device B's outage at t=120000 (within the 5-minute window of
the resolved incident's start) is added to the resolved incident's
affectedDevices instead of opening a new incident: after the full pass there
is still exactly one incident, resolved, with affectedDevices ["A", "B"]. -/
theorem claim_C3_counterexample :
    ((incidentsAfter (extractNetworkEvents c3logs) 2).map
        (fun i => (i.status, i.affectedDevices, i.recoveredDevices)) =
      [(IncidentStatus.resolved, ["A"], ["A"])]) ∧
    ((incidentsAfter (extractNetworkEvents c3logs) 3).map
        (fun i => (i.status, i.affectedDevices, i.recoveredDevices)) =
      [(IncidentStatus.resolved, ["A", "B"], ["A"])]) ∧
    (analyzeNetworkEvents c3logs).1.length = 1 := by
  decide

/-- C4, counterexample: 11 distinct devices reporting "Server Down" at the
same instant yield one incident with impactLevel 110, outside [0, 100]. -/
theorem claim_C4_counterexample :
    (analyzeNetworkEvents c4logs).1.map (·.impactLevel) = [110] ∧
      ¬ ((110 : ℤ) ≤ 100) := by
  decide

/-- C5: the code bug at the failing input.  A device whose only event is 2
hours old (inside the last 24 hours, outside the last hour) gets uptime
factor 0 from `calculateDeviceHealthScore`, while the spec formula
`min(100, 5 × count(events in last 24 hours))` gives 5: the source applies
its 24-hour filter to `recentLogs`, which is already restricted to the last
hour, so the factor counts only last-hour events. -/
theorem claim_C5_theorem :
    (calculateDeviceHealthScore c5now "A" [c5log] []).factors.uptime = 0 ∧
      specUptimeFactor c5now "A" [c5log] [] = 5 := by
  decide

/-- C6, counterexample: for the voltage series [12.4, 12.2, 12.0, 11.8, 11.6]
no anomaly at all is emitted by `detectAnomalies` (the claim asserts a
voltage_drop anomaly of severity high is emitted). -/
theorem claim_C6_counterexample :
    detectAnomalies 1000000 c6logs [] = [] := by
  decide

/-- C6, amended: the least-squares slope over reading index is negative
(-1/5), but `detectAnomalies` emits nothing for the device: the mean of the
last 5 readings is 12.0 V, which is not below the 11.5 V voltage_drop
threshold (and the slope is not consulted by `detectAnomalies` at all;
severity high would require a mean in [11.0, 11.5)). -/
theorem claim_C6_theorem :
    calculateVoltageTrend c6readings = -(1/5) ∧
      calculateVoltageTrend c6readings < 0 ∧
      (lastN 5 (voltageReadingsOf c6logs)).sum /
          ((lastN 5 (voltageReadingsOf c6logs)).length : ℚ) = 12 ∧
      ¬ ((12 : ℚ) < 11.5) ∧
      detectAnomalies 1000000 c6logs [] = [] := by
  decide

/-- C7, counterexample: "Read Timeout" contains "timeout" (so the claim's
predicate counts it as a failure) but none of the source's keywords
("server down", "connection timeout", "error"), so with two such exceptions
the source reports 0 critical exceptions and mtbf 168, while the claim's
formula `168 / max(1, 2)` would give 84. -/
theorem claim_C7_counterexample :
    claimIsFailure (c7log 0) = true ∧
      isFailureLog (c7log 0) = false ∧
      ([c7log 0, c7log 1].filter claimIsFailure).length = 2 ∧
      (calculateDevicePerformanceMetrics 0 "A" [] [c7log 0, c7log 1]).criticalExceptions = 0 ∧
      (calculateDevicePerformanceMetrics 0 "A" [] [c7log 0, c7log 1]).mtbf = 168 ∧
      (24 * 7 : ℚ) / max 1 (([c7log 0, c7log 1].filter claimIsFailure).length : ℚ) = 84 := by
  decide

/-- Acknowledging an id that occurs nowhere in the list changes nothing. -/
theorem ackList_of_not_mem (nid who : String) (now : Int) :
    ∀ l : List AlertNotification, (∀ n ∈ l, n.id ≠ nid) → ackList nid who now l = l := by
  intro l
  induction l with
  | nil => intro _; rfl
  | cons n rest ih =>
    intro h
    have hn : n.id ≠ nid := h n (List.mem_cons_self n rest)
    simp only [ackList, if_neg hn]
    rw [ih (fun m hm => h m (List.mem_cons_of_mem n hm))]

/-- Acknowledging is idempotent on the list: a second acknowledgement of the
same id (by anyone, at any time) changes nothing. -/
theorem ackList_idem (nid who who' : String) (now now' : Int) :
    ∀ l : List AlertNotification,
      ackList nid who' now' (ackList nid who now l) = ackList nid who now l := by
  intro l
  induction l with
  | nil => rfl
  | cons n rest ih =>
    by_cases hn : n.id = nid
    · simp only [ackList, if_pos hn]
      by_cases ha : n.acknowledged
      · simp only [if_pos ha, ackList, if_pos hn, if_pos ha]
      · simp only [if_neg ha, ackList, if_pos hn, if_true]
    · simp only [ackList, if_neg hn]
      rw [ih]

set_option maxRecDepth 20000 in
/-- C8: the notification dispatcher's bookkeeping.  (i) Adding 101 distinct
notifications to the empty enabled state leaves exactly 100, with the first
(oldest) one evicted and the newest at the head.  (ii) Acknowledging an id
not present in the list is a no-op.  (iii) Acknowledging is idempotent: a
second acknowledgement of the same id changes nothing. -/
theorem claim_C8_theorem :
    ((addAll ((List.range 101).map mkNotif) initialNotificationState).notifications.length = 100 ∧
      mkNotif 0 ∉ (addAll ((List.range 101).map mkNotif) initialNotificationState).notifications ∧
      (addAll ((List.range 101).map mkNotif) initialNotificationState).notifications.head? =
        some (mkNotif 100)) ∧
    (∀ (s : NotificationState) (nid who : String) (now : Int),
      (∀ n ∈ s.notifications, n.id ≠ nid) →
      acknowledgeNotification nid who now s = s) ∧
    (∀ (s : NotificationState) (nid who who' : String) (now now' : Int),
      acknowledgeNotification nid who' now' (acknowledgeNotification nid who now s) =
        acknowledgeNotification nid who now s) := by
  refine ⟨by decide, ?_, ?_⟩
  · intro s nid who now h
    show { s with notifications := ackList nid who now s.notifications } = s
    rw [ackList_of_not_mem nid who now s.notifications h]
  · intro s nid who who' now now'
    simp only [acknowledgeNotification, ackList_idem]

/-- C8, witness: acknowledging the absent id "zzz" on a one-element state is a
no-op (instantiating the theorem's hypothesis-bearing clause). -/
theorem claim_C8_witness :
    (∀ n ∈ (NotificationState.mk [mkNotif 1] true).notifications, n.id ≠ "zzz") ∧
      acknowledgeNotification "zzz" "op" 0 (NotificationState.mk [mkNotif 1] true) =
        NotificationState.mk [mkNotif 1] true :=
  ⟨by decide, claim_C8_theorem.2.1 (NotificationState.mk [mkNotif 1] true) "zzz" "op" 0
    (by decide)⟩

/-- C9: `parseTimestamp` is total — it is a function into instants, and this
characterization covers every input shape: missing input falls back to `now`;
a valid date value passes through; an invalid date value falls back; a string
on which every strategy fails (including the falsy empty string) falls back
to `now`; and in general the result is either a fallback `now`, the valid
input date, or the output of one of the four parsing strategies — no failure
is ever propagated. -/
theorem claim_C9_theorem (now : Int) (st : ParseStrategies) (input : TimestampInput) :
    (input = .nullTs → parseTimestamp now st input = now) ∧
    (∀ t, input = .dateVal true t → parseTimestamp now st input = t) ∧
    (∀ t, input = .dateVal false t → parseTimestamp now st input = now) ∧
    (∀ s, input = .strVal s → st.parseIso s = none → st.parseDdMmYyyyMs s = none →
      st.parseDdMmYyyy s = none → st.parseNative s = none →
      parseTimestamp now st input = now) ∧
    (parseTimestamp now st input = now ∨
      (∃ t, input = .dateVal true t ∧ parseTimestamp now st input = t) ∨
      (∃ s t, input = .strVal s ∧ parseTimestamp now st input = t ∧
        (st.parseIso s = some t ∨ st.parseDdMmYyyyMs s = some t ∨
          st.parseDdMmYyyy s = some t ∨ st.parseNative s = some t))) := by
  refine ⟨?_, ?_, ?_, ?_, ?_⟩
  · rintro rfl; rfl
  · rintro t rfl; rfl
  · rintro t rfl; rfl
  · rintro s rfl h1 h2 h3 h4
    by_cases hs : s = ""
    · simp [parseTimestamp, hs]
    · simp [parseTimestamp, hs, h1, h2, h3, h4]
  · cases input with
    | nullTs => exact Or.inl rfl
    | dateVal valid t =>
      cases valid
      · exact Or.inl rfl
      · exact Or.inr (Or.inl ⟨t, rfl, rfl⟩)
    | strVal s =>
      by_cases hs : s = ""
      · subst hs; exact Or.inl rfl
      · rcases h1 : st.parseIso s with _ | t1
        · rcases h2 : st.parseDdMmYyyyMs s with _ | t2
          · rcases h3 : st.parseDdMmYyyy s with _ | t3
            · rcases h4 : st.parseNative s with _ | t4
              · left
                simp [parseTimestamp, hs, h1, h2, h3, h4]
              · right; right
                refine ⟨s, t4, rfl, ?_, by simp [h4]⟩
                simp [parseTimestamp, hs, h1, h2, h3, h4]
            · right; right
              refine ⟨s, t3, rfl, ?_, by simp [h3]⟩
              simp [parseTimestamp, hs, h1, h2, h3]
          · right; right
            refine ⟨s, t2, rfl, ?_, by simp [h2]⟩
            simp [parseTimestamp, hs, h1, h2]
        · right; right
          refine ⟨s, t1, rfl, ?_, by simp [h1]⟩
          simp [parseTimestamp, hs, h1]

/-- C9, witness: an unparseable string under always-failing strategies falls
back to `now` (= 5). -/
theorem claim_C9_witness :
    (failingStrategies.parseIso "garbage" = none ∧
      failingStrategies.parseDdMmYyyyMs "garbage" = none ∧
      failingStrategies.parseDdMmYyyy "garbage" = none ∧
      failingStrategies.parseNative "garbage" = none) ∧
      parseTimestamp 5 failingStrategies (.strVal "garbage") = 5 :=
  ⟨⟨rfl, rfl, rfl, rfl⟩,
    (claim_C9_theorem 5 failingStrategies (.strVal "garbage")).2.2.2.1 "garbage" rfl
      rfl rfl rfl rfl⟩

/-- `Math.round` is the identity on integers. -/
theorem jsRound_intCast (k : ℤ) : jsRound (k : ℚ) = k := by
  unfold jsRound
  rw [Int.floor_eq_iff]
  constructor
  · linarith
  · linarith

/-- Two-decimal rounding is the identity on integers. -/
theorem round2_intCast (k : ℤ) : round2 (k : ℚ) = k := by
  unfold round2
  have h : (k : ℚ) * 100 = ((k * 100 : ℤ) : ℚ) := by push_cast; ring
  rw [h, jsRound_intCast]
  push_cast
  field_simp

/-- C7, amended: `criticalExceptions` counts exactly the device's exceptions
whose category contains "server down", "connection timeout" or "error"
(case-insensitive substring), and the reported MTBF is `(24×7) /
max(1, failureCount)` rounded to two decimals; with fewer than 2 failures it
equals the full 168-hour window. -/
theorem claim_C7_theorem (now : Int) (imei : String)
    (ignitionLogs : List IgnitionLog) (exceptionLogs : List ExceptionLog) :
    let fails := (exceptionLogs.filter (fun l => l.deviceImei = imei)).filter isFailureLog
    let m := calculateDevicePerformanceMetrics now imei ignitionLogs exceptionLogs
    m.criticalExceptions = fails.length ∧
      m.mtbf = round2 ((24 * 7 : ℚ) / max 1 (fails.length : ℚ)) ∧
      (fails.length < 2 → m.mtbf = 24 * 7) := by
  intro fails m
  have hcrit : m.criticalExceptions = fails.length := rfl
  have hmtbf :
      m.mtbf = round2 (if fails.length > 1 then (24 * 7 : ℚ) / fails.length else 24 * 7) :=
    rfl
  have hmax : m.mtbf = round2 ((24 * 7 : ℚ) / max 1 (fails.length : ℚ)) := by
    rw [hmtbf]
    by_cases h : fails.length > 1
    · have h1 : (1 : ℚ) ≤ (fails.length : ℚ) := by
        have : (1 : ℕ) ≤ fails.length := Nat.le_of_lt h
        exact_mod_cast this
      rw [if_pos h, max_eq_right h1]
    · interval_cases hlen : fails.length
      · norm_num
      · norm_num
  refine ⟨hcrit, hmax, ?_⟩
  intro hlt
  rw [hmax]
  interval_cases hlen : fails.length
  · rw [show ((24 * 7 : ℚ) / max 1 ((0 : ℕ) : ℚ)) = ((168 : ℤ) : ℚ) by norm_num,
      round2_intCast]
    norm_num
  · rw [show ((24 * 7 : ℚ) / max 1 ((1 : ℕ) : ℚ)) = ((168 : ℤ) : ℚ) by norm_num,
      round2_intCast]
    norm_num

/-- C7, witness: a device with no exceptions has 0 failures and mtbf = 168. -/
theorem claim_C7_witness :
    ((([] : List ExceptionLog).filter (fun l => l.deviceImei = "A")).filter
        isFailureLog).length < 2 ∧
      (calculateDevicePerformanceMetrics 0 "A" [] []).mtbf = 24 * 7 :=
  ⟨by decide, (claim_C7_theorem 0 "A" [] []).2.2 (by decide)⟩

/-- `finalizeIncident` keeps the device sets and sets
`impactLevel = round(|affected| / totalDeviceCount × 100)`. -/
theorem finalizeIncident_impact (inc : NetworkIncident) :
    (finalizeIncident inc).affectedDevices = inc.affectedDevices ∧
      (finalizeIncident inc).recoveredDevices = inc.recoveredDevices ∧
      (finalizeIncident inc).impactLevel =
        jsRound ((inc.affectedDevices.length : ℚ) / (totalDeviceCount : ℚ) * 100) := by
  unfold finalizeIncident
  refine ⟨rfl, rfl, rfl⟩

/-- With the configured fleet size 10, the impact percentage is exactly ten
times the affected-device count. -/
theorem impact_eq_ten_mul (n : ℕ) :
    jsRound ((n : ℚ) / (totalDeviceCount : ℚ) * 100) = 10 * n := by
  have h : (n : ℚ) / (totalDeviceCount : ℚ) * 100 = ((10 * n : ℤ) : ℚ) := by
    unfold totalDeviceCount
    push_cast
    ring
  rw [h, jsRound_intCast]

/-- C4, amended: every incident's impact percentage equals
`round(|affectedDevices| / 10 × 100) = 10·|affectedDevices|`; it is always
≥ 0, and it is ≤ 100 exactly when the incident affects at most the configured
10 devices — the source applies no clamping, so it exceeds 100 whenever more
than 10 distinct devices join one incident. -/
theorem claim_C4_theorem (exceptionLogs : List ExceptionLog) :
    ∀ inc ∈ (analyzeNetworkEvents exceptionLogs).1,
      inc.impactLevel =
          jsRound ((inc.affectedDevices.length : ℚ) / (totalDeviceCount : ℚ) * 100) ∧
        0 ≤ inc.impactLevel ∧
        (inc.affectedDevices.length ≤ totalDeviceCount → inc.impactLevel ≤ 100) := by
  intro inc hmem
  have hmem' : inc ∈ (groupEventsIntoIncidents (extractNetworkEvents exceptionLogs)) := hmem
  unfold groupEventsIntoIncidents at hmem'
  obtain ⟨y, _, hy⟩ := List.mem_map.mp hmem'
  obtain ⟨haff, _, himp⟩ := finalizeIncident_impact y
  subst hy
  rw [haff, himp, impact_eq_ten_mul]
  refine ⟨rfl, by positivity, ?_⟩
  intro hle
  unfold totalDeviceCount at hle
  omega

/-- C4, witness: the single-device incident from one "Server Down" log has
impact 10, inside [0, 100]. -/
theorem claim_C4_witness :
    ((NetworkIncident.mk "incident_0" 0 none none IncidentStatus.ongoing ["W"] []
        IncidentSeverity.medium 10 RecoveryPatternKind.simultaneous) ∈
        (analyzeNetworkEvents [c2log]).1 ∧
      (NetworkIncident.mk "incident_0" 0 none none IncidentStatus.ongoing ["W"] []
        IncidentSeverity.medium 10 RecoveryPatternKind.simultaneous).affectedDevices.length ≤
        totalDeviceCount) ∧
      (NetworkIncident.mk "incident_0" 0 none none IncidentStatus.ongoing ["W"] []
        IncidentSeverity.medium 10 RecoveryPatternKind.simultaneous).impactLevel ≤ 100 :=
  ⟨⟨by decide, by decide⟩,
    (claim_C4_theorem [c2log] _ (by decide)).2.2 (by decide)⟩

/-! ## Grouping-pass invariants (C2, C3) -/

/-- Membership in an updated list: an element of `updateAt l i f` is an
original element or the `f`-image of one. -/
theorem mem_updateAt {f : α → α} :
    ∀ (l : List α) (i : Nat), ∀ a ∈ updateAt l i f, a ∈ l ∨ ∃ b, b ∈ l ∧ a = f b := by
  intro l
  induction l with
  | nil => intro i a ha; cases ha
  | cons x rest ih =>
    intro i a ha
    cases i with
    | zero =>
      rcases List.mem_cons.mp ha with rfl | hmem
      · exact Or.inr ⟨x, List.mem_cons_self x rest, rfl⟩
      · exact Or.inl (List.mem_cons_of_mem x hmem)
    | succ n =>
      rcases List.mem_cons.mp ha with rfl | hmem
      · exact Or.inl (List.mem_cons_self a rest)
      · rcases ih n a hmem with h | ⟨b, hb, rfl⟩
        · exact Or.inl (List.mem_cons_of_mem x h)
        · exact Or.inr ⟨b, List.mem_cons_of_mem x hb, rfl⟩

/-- Membership in a list updated at a position found by `findIdxP p`: an
element is an original, or the `f`-image of an original satisfying `p`. -/
theorem mem_updateAt_findIdxP {p : α → Bool} {f : α → α} :
    ∀ (l : List α) (i : Nat), findIdxP p l = some i →
      ∀ a ∈ updateAt l i f, a ∈ l ∨ ∃ b, b ∈ l ∧ p b = true ∧ a = f b := by
  intro l
  induction l with
  | nil => intro i h; cases h
  | cons x rest ih =>
    intro i h a ha
    by_cases hp : p x
    · have hi : i = 0 := by
        simp only [findIdxP, if_pos hp] at h
        exact (Option.some_inj.mp h).symm
      subst hi
      rcases List.mem_cons.mp ha with rfl | hmem
      · exact Or.inr ⟨x, List.mem_cons_self x rest, hp, rfl⟩
      · exact Or.inl (List.mem_cons_of_mem x hmem)
    · simp only [findIdxP, if_neg hp, Option.map_eq_some'] at h
      obtain ⟨j, hj, hji⟩ := h
      subst hji
      rcases List.mem_cons.mp ha with rfl | hmem
      · exact Or.inl (List.mem_cons_self a rest)
      · rcases ih j hj a hmem with hmem' | ⟨b, hb, hpb, rfl⟩
        · exact Or.inl (List.mem_cons_of_mem x hmem')
        · exact Or.inr ⟨b, List.mem_cons_of_mem x hb, hpb, rfl⟩

/-- `get?` after an in-place update. -/
theorem updateAt_get? {f : α → α} :
    ∀ (l : List α) (i j : Nat),
      (updateAt l j f).get? i = if i = j then (l.get? i).map f else l.get? i := by
  intro l
  induction l with
  | nil => intro i j; cases j <;> simp [updateAt]
  | cons x rest ih =>
    intro i j
    cases j with
    | zero =>
      cases i with
      | zero => simp [updateAt]
      | succ n => simp [updateAt]
    | succ m =>
      cases i with
      | zero => simp [updateAt]
      | succ n =>
        simp only [updateAt, List.get?]
        rw [ih n m]
        by_cases h : n = m
        · subst h; simp
        · simp [h]

/-- The element at a position found by `findIdxP p` satisfies `p`. -/
theorem findIdxP_get? {p : α → Bool} :
    ∀ (l : List α) (i : Nat), findIdxP p l = some i →
      ∃ b, l.get? i = some b ∧ p b = true := by
  intro l
  induction l with
  | nil => intro i h; cases h
  | cons x rest ih =>
    intro i h
    by_cases hp : p x
    · have hi : i = 0 := by
        simp only [findIdxP, if_pos hp] at h
        exact (Option.some_inj.mp h).symm
      subst hi
      exact ⟨x, rfl, hp⟩
    · simp only [findIdxP, if_neg hp, Option.map_eq_some'] at h
      obtain ⟨j, hj, hji⟩ := h
      subst hji
      obtain ⟨b, hb, hpb⟩ := ih j hj
      exact ⟨b, hb, hpb⟩

/-- The device-set invariant of C2. -/
def IncidentSetsOK (inc : NetworkIncident) : Prop :=
  inc.recoveredDevices ⊆ inc.affectedDevices

/-- `resolveCheck` does not touch the device sets. -/
theorem resolveCheck_sets (t : Int) (inc : NetworkIncident) :
    (resolveCheck t inc).affectedDevices = inc.affectedDevices ∧
      (resolveCheck t inc).recoveredDevices = inc.recoveredDevices := by
  unfold resolveCheck
  split <;> exact ⟨rfl, rfl⟩

/-- `applyRecovery` keeps the affected set and at most appends the recovered
device to the recovered set. -/
theorem applyRecovery_sets (t : Int) (d : String) (inc : NetworkIncident) :
    (applyRecovery t d inc).affectedDevices = inc.affectedDevices ∧
      ((applyRecovery t d inc).recoveredDevices = inc.recoveredDevices ∨
        (applyRecovery t d inc).recoveredDevices = inc.recoveredDevices ++ [d]) := by
  unfold applyRecovery
  by_cases hc : inc.recoveredDevices.contains d
  · simp only [if_pos hc]
    exact ⟨(resolveCheck_sets t inc).1, Or.inl (resolveCheck_sets t inc).2⟩
  · simp only [if_neg hc]
    refine ⟨(resolveCheck_sets t _).1, Or.inr (resolveCheck_sets t _).2⟩

/-- `applyRecovery` preserves the C2 invariant when the device is affected. -/
theorem applyRecovery_setsOK (t : Int) (d : String) (inc : NetworkIncident)
    (hd : inc.affectedDevices.contains d = true) (h : IncidentSetsOK inc) :
    IncidentSetsOK (applyRecovery t d inc) := by
  have hdm : d ∈ inc.affectedDevices := by simpa using hd
  obtain ⟨ha, hr⟩ := applyRecovery_sets t d inc
  unfold IncidentSetsOK
  rw [ha]
  rcases hr with hr | hr <;> rw [hr]
  · exact h
  · exact List.append_subset.mpr ⟨h, by simpa using hdm⟩

/-- `addAffected` preserves the C2 invariant. -/
theorem addAffected_setsOK (d : String) (inc : NetworkIncident)
    (h : IncidentSetsOK inc) : IncidentSetsOK (addAffected d inc) := by
  unfold addAffected IncidentSetsOK
  split
  · exact h
  · exact h.trans (List.subset_append_left _ _)

/-- One grouping step preserves the C2 invariant for every incident. -/
theorem stepEvent_setsOK (st : GroupState) (e : NetworkEvent)
    (H : ∀ inc ∈ st.incidents, IncidentSetsOK inc) :
    ∀ inc ∈ (stepEvent st e).incidents, IncidentSetsOK inc := by
  intro inc hmem
  cases he : e.eventType with
  | outage =>
    rcases hcur : st.currentIncident.bind (fun i =>
        (st.incidents.get? i).map (fun inc => (i, inc))) with _ | ⟨i, cur⟩
    · simp only [stepEvent, he, hcur] at hmem
      simp only [List.mem_append, List.mem_singleton] at hmem
      rcases hmem with hmem | rfl
      · exact H inc hmem
      · intro d hd; cases hd
    · simp only [stepEvent, he, hcur] at hmem
      by_cases hw : e.timestamp - cur.startTime > INCIDENT_WINDOW
      · rw [if_pos hw] at hmem
        simp only [List.mem_append, List.mem_singleton] at hmem
        rcases hmem with hmem | rfl
        · exact H inc hmem
        · intro d hd; cases hd
      · rw [if_neg hw] at hmem
        rcases mem_updateAt st.incidents i inc hmem with hmem' | ⟨b, hb, rfl⟩
        · exact H inc hmem'
        · exact addAffected_setsOK _ b (H b hb)
  | recovery =>
    rcases hget : assocGet st.deviceOutages e.deviceImei with _ | t
    · simp only [stepEvent, he, hget] at hmem
      exact H inc hmem
    · rcases hfind : findIdxP (fun inc => inc.affectedDevices.contains e.deviceImei &&
          inc.status == IncidentStatus.ongoing) st.incidents with _ | j
      · simp only [stepEvent, he, hget, hfind] at hmem
        exact H inc hmem
      · simp only [stepEvent, he, hget, hfind] at hmem
        rcases mem_updateAt_findIdxP st.incidents j hfind inc hmem with
          hmem' | ⟨b, hb, hpb, rfl⟩
        · exact H inc hmem'
        · have hpb' : b.affectedDevices.contains e.deviceImei = true ∧
              (b.status == IncidentStatus.ongoing) = true := by
            simpa using hpb
          exact applyRecovery_setsOK _ _ b hpb'.1 (H b hb)
  | timeout =>
    simp only [stepEvent, he] at hmem
    exact H inc hmem

/-- The whole grouping pass preserves the C2 invariant. -/
theorem foldl_setsOK :
    ∀ (evs : List NetworkEvent) (st : GroupState),
      (∀ inc ∈ st.incidents, IncidentSetsOK inc) →
      ∀ inc ∈ (evs.foldl stepEvent st).incidents, IncidentSetsOK inc := by
  intro evs
  induction evs with
  | nil => intro st H; exact H
  | cons e rest ih => intro st H; exact ih (stepEvent st e) (stepEvent_setsOK st e H)

/-- C2: at every point during the grouping pass (after any prefix of the
extracted event stream) and in every incident returned by
`analyzeNetworkEvents`, the recovered-device set is a subset of the
affected-device set. -/
theorem claim_C2_theorem (exceptionLogs : List ExceptionLog) (n : ℕ) :
    (∀ inc ∈ incidentsAfter (extractNetworkEvents exceptionLogs) n,
        inc.recoveredDevices ⊆ inc.affectedDevices) ∧
      (∀ inc ∈ (analyzeNetworkEvents exceptionLogs).1,
        inc.recoveredDevices ⊆ inc.affectedDevices) := by
  have hinit : ∀ inc ∈ initGroupState.incidents, IncidentSetsOK inc := by
    intro inc h; cases h
  constructor
  · intro inc hmem
    exact foldl_setsOK _ initGroupState hinit inc hmem
  · intro inc hmem
    have hmem' : inc ∈ groupEventsIntoIncidents (extractNetworkEvents exceptionLogs) := hmem
    unfold groupEventsIntoIncidents at hmem'
    obtain ⟨y, hy, rfl⟩ := List.mem_map.mp hmem'
    have hOK := foldl_setsOK (extractNetworkEvents exceptionLogs) initGroupState hinit y hy
    have h1 := (finalizeIncident_impact y).1
    have h2 := (finalizeIncident_impact y).2.1
    rw [h1, h2]
    exact hOK

/-- C2, witness: the single ongoing incident from one "Server Down" log. -/
theorem claim_C2_witness :
    ((NetworkIncident.mk "incident_0" 0 none none IncidentStatus.ongoing ["W"] []
        IncidentSeverity.critical 0 RecoveryPatternKind.simultaneous) ∈
        incidentsAfter (extractNetworkEvents [c2log]) 1) ∧
      (NetworkIncident.mk "incident_0" 0 none none IncidentStatus.ongoing ["W"] []
        IncidentSeverity.critical 0 RecoveryPatternKind.simultaneous).recoveredDevices ⊆
        (NetworkIncident.mk "incident_0" 0 none none IncidentStatus.ongoing ["W"] []
        IncidentSeverity.critical 0 RecoveryPatternKind.simultaneous).affectedDevices :=
  ⟨by decide, (claim_C2_theorem [c2log] 1).1 _ (by decide)⟩

/-- `addAffected` never changes status, recovered set, times or duration. -/
theorem addAffected_frozen (d : String) (inc : NetworkIncident) :
    (addAffected d inc).status = inc.status ∧
      (addAffected d inc).recoveredDevices = inc.recoveredDevices ∧
      (addAffected d inc).endTime = inc.endTime ∧
      (addAffected d inc).duration = inc.duration ∧
      (addAffected d inc).startTime = inc.startTime := by
  unfold addAffected
  split <;> exact ⟨rfl, rfl, rfl, rfl, rfl⟩

/-- One grouping step never changes a resolved incident's status, recovered
set, end time, duration or start time (its affected set may still grow, which
is exactly the C3 counterexample). -/
theorem stepEvent_resolved_stable (st : GroupState) (e : NetworkEvent) (i : Nat)
    (inc : NetworkIncident) (hget : st.incidents.get? i = some inc)
    (hres : inc.status = .resolved) :
    ∃ inc', (stepEvent st e).incidents.get? i = some inc' ∧
      inc'.status = .resolved ∧
      inc'.recoveredDevices = inc.recoveredDevices ∧
      inc'.endTime = inc.endTime ∧
      inc'.duration = inc.duration ∧
      inc'.startTime = inc.startTime := by
  have hlt : i < st.incidents.length := by
    by_contra hge
    rw [List.get?_eq_none.mpr (Nat.le_of_not_lt hge)] at hget
    cases hget
  cases he : e.eventType with
  | outage =>
    rcases hcur : st.currentIncident.bind (fun i =>
        (st.incidents.get? i).map (fun inc => (i, inc))) with _ | ⟨j, cur⟩
    · refine ⟨inc, ?_, hres, rfl, rfl, rfl, rfl⟩
      simp only [stepEvent, he, hcur]
      rw [List.get?_append hlt]
      exact hget
    · by_cases hw : e.timestamp - cur.startTime > INCIDENT_WINDOW
      · refine ⟨inc, ?_, hres, rfl, rfl, rfl, rfl⟩
        simp only [stepEvent, he, hcur, if_pos hw]
        rw [List.get?_append hlt]
        exact hget
      · by_cases hij : i = j
        · subst hij
          refine ⟨addAffected e.deviceImei inc, ?_, ?_, ?_, ?_, ?_, ?_⟩
          · simp only [stepEvent, he, hcur, if_neg hw]
            rw [updateAt_get?, if_pos rfl, hget]
            rfl
          · rw [(addAffected_frozen _ inc).1, hres]
          · exact (addAffected_frozen _ inc).2.1
          · exact (addAffected_frozen _ inc).2.2.1
          · exact (addAffected_frozen _ inc).2.2.2.1
          · exact (addAffected_frozen _ inc).2.2.2.2
        · refine ⟨inc, ?_, hres, rfl, rfl, rfl, rfl⟩
          simp only [stepEvent, he, hcur, if_neg hw]
          rw [updateAt_get?, if_neg hij]
          exact hget
  | recovery =>
    rcases hg : assocGet st.deviceOutages e.deviceImei with _ | t
    · refine ⟨inc, ?_, hres, rfl, rfl, rfl, rfl⟩
      simp only [stepEvent, he, hg]
      exact hget
    · rcases hfind : findIdxP (fun inc => inc.affectedDevices.contains e.deviceImei &&
          inc.status == IncidentStatus.ongoing) st.incidents with _ | j
      · refine ⟨inc, ?_, hres, rfl, rfl, rfl, rfl⟩
        simp only [stepEvent, he, hg, hfind]
        exact hget
      · by_cases hij : i = j
        · exfalso
          subst hij
          obtain ⟨b, hb, hpb⟩ := findIdxP_get? st.incidents i hfind
          rw [hget] at hb
          cases hb
          have : inc.status = IncidentStatus.ongoing := by
            have h2 := (Bool.and_eq_true _ _ ▸ hpb :
              inc.affectedDevices.contains e.deviceImei = true ∧
                (inc.status == IncidentStatus.ongoing) = true).2
            exact beq_iff_eq.mp h2
          rw [hres] at this
          cases this
        · refine ⟨inc, ?_, hres, rfl, rfl, rfl, rfl⟩
          simp only [stepEvent, he, hg, hfind]
          rw [updateAt_get?, if_neg hij]
          exact hget
  | timeout =>
    refine ⟨inc, ?_, hres, rfl, rfl, rfl, rfl⟩
    simp only [stepEvent, he]
    exact hget

/-- The rest of the grouping pass never changes a resolved incident's status,
recovered set, end time, duration or start time. -/
theorem foldl_resolved_stable :
    ∀ (evs : List NetworkEvent) (st : GroupState) (i : Nat) (inc : NetworkIncident),
      st.incidents.get? i = some inc → inc.status = .resolved →
      ∃ inc', (evs.foldl stepEvent st).incidents.get? i = some inc' ∧
        inc'.status = .resolved ∧
        inc'.recoveredDevices = inc.recoveredDevices ∧
        inc'.endTime = inc.endTime ∧
        inc'.duration = inc.duration ∧
        inc'.startTime = inc.startTime := by
  intro evs
  induction evs with
  | nil => intro st i inc h hres; exact ⟨inc, h, hres, rfl, rfl, rfl, rfl⟩
  | cons e rest ih =>
    intro st i inc h hres
    obtain ⟨inc1, h1, hs1, hr1, he1, hd1, hst1⟩ := stepEvent_resolved_stable st e i inc h hres
    obtain ⟨inc2, h2, hs2, hr2, he2, hd2, hst2⟩ := ih (stepEvent st e) i inc1 h1 hs1
    exact ⟨inc2, h2, hs2, hr2.trans hr1, he2.trans he1, hd2.trans hd1, hst2.trans hst1⟩

/-- C3, amended: once an incident is resolved, its status is never reverted
and its recovered set, end time, duration and start time are never changed by
the remaining grouping pass (recovery events never touch it again); only its
affected-device set may still grow, because an outage within 5 minutes of the
(resolved) current incident's start is added to it instead of opening a new
incident. -/
theorem claim_C3_theorem (exceptionLogs : List ExceptionLog) (m n i : ℕ)
    (inc : NetworkIncident) (hmn : m ≤ n)
    (hget : (incidentsAfter (extractNetworkEvents exceptionLogs) m).get? i = some inc)
    (hres : inc.status = .resolved) :
    ∃ inc', (incidentsAfter (extractNetworkEvents exceptionLogs) n).get? i = some inc' ∧
      inc'.status = .resolved ∧
      inc'.recoveredDevices = inc.recoveredDevices ∧
      inc'.endTime = inc.endTime ∧
      inc'.duration = inc.duration ∧
      inc'.startTime = inc.startTime := by
  unfold incidentsAfter at hget ⊢
  have hsplit : (extractNetworkEvents exceptionLogs).take n =
      (extractNetworkEvents exceptionLogs).take m ++
        (((extractNetworkEvents exceptionLogs).take n).drop m) := by
    conv_lhs => rw [← List.take_append_drop m ((extractNetworkEvents exceptionLogs).take n)]
    rw [List.take_take, min_eq_left hmn]
  rw [hsplit, List.foldl_append]
  exact foldl_resolved_stable _ _ i inc hget hres

/-- C3, witness: in the three-event scenario the incident resolved after two
events is still resolved, with recovered set, end time and duration untouched,
after the third event (the in-window outage of device B). -/
theorem claim_C3_witness :
    (2 ≤ 3 ∧
      (incidentsAfter (extractNetworkEvents c3logs) 2).get? 0 = some c3inc ∧
      c3inc.status = .resolved) ∧
      (∃ inc', (incidentsAfter (extractNetworkEvents c3logs) 3).get? 0 = some inc' ∧
        inc'.status = .resolved ∧
        inc'.recoveredDevices = c3inc.recoveredDevices ∧
        inc'.endTime = c3inc.endTime ∧
        inc'.duration = c3inc.duration ∧
        inc'.startTime = c3inc.startTime) :=
  ⟨⟨by omega, by decide, by decide⟩,
    claim_C3_theorem c3logs 2 3 0 c3inc (by omega) (by decide) (by decide)⟩

/-! ## Voltage-truthiness invariance (C10) -/

/-- Standardization preserves voltage truthiness. -/
theorem stdVolt_truthy (v : Option ℚ) : voltageTruthy (stdVolt v) = voltageTruthy v := by
  unfold stdVolt
  by_cases h : voltageTruthy v = true
  · rw [if_pos h]
  · rw [if_neg h]
    rw [Bool.not_eq_true] at h
    rw [h]
    rfl

/-- Standardization of a log preserves voltage truthiness. -/
theorem stdLog_truthy (l : IgnitionLog) :
    voltageTruthy (stdLog l).voltage = voltageTruthy l.voltage :=
  stdVolt_truthy l.voltage

/-- A truthy voltage is untouched by standardization. -/
theorem stdLog_voltage_of_truthy (l : IgnitionLog) (h : voltageTruthy l.voltage = true) :
    (stdLog l).voltage = l.voltage := by
  simp [stdLog, stdVolt, h]

/-- A filter whose predicate is invariant under `f` commutes with `map f`. -/
theorem filter_map_comm (f : α → α) (p : α → Bool) (hp : ∀ x, p (f x) = p x) :
    ∀ l : List α, (l.map f).filter p = (l.filter p).map f := by
  intro l
  induction l with
  | nil => rfl
  | cons x rest ih =>
    simp only [List.map_cons, List.filter_cons, hp x]
    cases hx : p x
    · simpa using ih
    · simpa using ih

/-- Timestamps are unchanged by standardization. -/
theorem map_ts_map_std (l : List IgnitionLog) :
    (l.map stdLog).map (fun x => x.timestamp) = l.map (fun x => x.timestamp) := by
  rw [List.map_map]
  rfl

/-- Device ids are unchanged by standardization. -/
theorem map_imei_map_std (l : List IgnitionLog) :
    (l.map stdLog).map (fun x => x.deviceImei) = l.map (fun x => x.deviceImei) := by
  rw [List.map_map]
  rfl

/-- The per-device filter commutes with standardization. -/
theorem filter_imei_map_std (imei : String) (l : List IgnitionLog) :
    (l.map stdLog).filter (fun x => x.deviceImei = imei) =
      (l.filter (fun x => x.deviceImei = imei)).map stdLog :=
  filter_map_comm stdLog (fun x => decide (x.deviceImei = imei)) (fun _ => rfl) l

/-- The truthiness filter commutes with standardization. -/
theorem filter_truthy_map_std (l : List IgnitionLog) :
    (l.map stdLog).filter (fun x => voltageTruthy x.voltage) =
      (l.filter (fun x => voltageTruthy x.voltage)).map stdLog :=
  filter_map_comm stdLog _ (fun x => stdLog_truthy x) l

/-- `slice(-n)` commutes with `map`. -/
theorem lastN_map {f : α → β} (n : Nat) (l : List α) :
    lastN n (l.map f) = (lastN n l).map f := by
  unfold lastN
  rw [List.length_map, List.map_drop]

/-- On all-truthy logs, extracting the voltage value ignores standardization. -/
theorem map_getD_std (l : List IgnitionLog) (h : ∀ x ∈ l, voltageTruthy x.voltage = true) :
    (l.map stdLog).map (fun x => x.voltage.getD 0) = l.map (fun x => x.voltage.getD 0) := by
  rw [List.map_map]
  apply List.map_congr_left
  intro x hx
  simp only [Function.comp_apply]
  rw [stdLog_voltage_of_truthy x (h x hx)]

/-- On all-truthy logs, building voltage readings ignores standardization. -/
theorem map_mkReading_std (l : List IgnitionLog)
    (h : ∀ x ∈ l, voltageTruthy x.voltage = true) :
    (l.map stdLog).map (fun x => VoltageReading.mk (x.voltage.getD 0) x.timestamp) =
      l.map (fun x => VoltageReading.mk (x.voltage.getD 0) x.timestamp) := by
  rw [List.map_map]
  apply List.map_congr_left
  intro x hx
  simp only [Function.comp_apply]
  rw [stdLog_voltage_of_truthy x (h x hx)]
  rfl

/-- The voltage-reading selection is invariant under standardization. -/
theorem voltageReadingsOf_map_std (l : List IgnitionLog) :
    voltageReadingsOf (l.map stdLog) = voltageReadingsOf l := by
  unfold voltageReadingsOf
  rw [filter_truthy_map_std]
  exact map_getD_std _ (fun x hx => by simpa using List.of_mem_filter hx)

/-- The health score is invariant under standardization of the voltage field. -/
theorem healthScore_map_std (now : Int) (imei : String) (l : List IgnitionLog)
    (exc : List ExceptionLog) :
    calculateDeviceHealthScore now imei (l.map stdLog) exc =
      calculateDeviceHealthScore now imei l exc := by
  simp only [calculateDeviceHealthScore, filter_imei_map_std, map_ts_map_std,
    voltageReadingsOf_map_std, List.length_map]

/-- The performance metrics are invariant under standardization. -/
theorem perfMetrics_map_std (now : Int) (imei : String) (l : List IgnitionLog)
    (exc : List ExceptionLog) :
    calculateDevicePerformanceMetrics now imei (l.map stdLog) exc =
      calculateDevicePerformanceMetrics now imei l exc := by
  simp only [calculateDevicePerformanceMetrics, filter_imei_map_std, map_ts_map_std,
    voltageReadingsOf_map_std, List.length_map]

/-- The device-group key order is invariant under standardization. -/
theorem deviceKeys_map_std (l : List IgnitionLog) (exc : List ExceptionLog) :
    deviceKeys (l.map stdLog) exc = deviceKeys l exc := by
  unfold deviceKeys
  rw [map_imei_map_std]

/-- Per-device anomaly detection is invariant under standardization. -/
theorem anomaliesForDevice_map_std (now : Int) (imei : String) (igns : List IgnitionLog)
    (exc : List ExceptionLog) :
    anomaliesForDevice now imei (igns.map stdLog) exc =
      anomaliesForDevice now imei igns exc := by
  unfold anomaliesForDevice
  rw [filter_truthy_map_std, lastN_map,
    map_getD_std _ (fun x hx => by
      simpa using List.of_mem_filter (List.drop_subset _ _ hx))]

/-- `detectAnomalies` is invariant under standardization. -/
theorem detectAnomalies_map_std (now : Int) (l : List IgnitionLog)
    (exc : List ExceptionLog) :
    detectAnomalies now (l.map stdLog) exc = detectAnomalies now l exc := by
  have hbody : (fun imei => anomaliesForDevice now imei
        ((l.map stdLog).filter (fun x => x.deviceImei = imei))
        (exc.filter (fun x => x.deviceImei = imei))) =
      (fun imei => anomaliesForDevice now imei
        (l.filter (fun x => x.deviceImei = imei))
        (exc.filter (fun x => x.deviceImei = imei))) := by
    funext k
    rw [filter_imei_map_std, anomaliesForDevice_map_std]
  unfold detectAnomalies
  rw [deviceKeys_map_std, hbody]

/-- Per-device predictive alerting is invariant under standardization. -/
theorem alertsForDevice_map_std (now : Int) (imei : String) (igns : List IgnitionLog)
    (exc : List ExceptionLog) :
    alertsForDevice now imei (igns.map stdLog) exc = alertsForDevice now imei igns exc := by
  unfold alertsForDevice
  rw [filter_truthy_map_std, lastN_map,
    map_mkReading_std _ (fun x hx => by
      simpa using List.of_mem_filter (List.drop_subset _ _ hx))]

/-- `generatePredictiveAlerts` is invariant under standardization. -/
theorem generatePredictiveAlerts_map_std (now : Int) (l : List IgnitionLog)
    (exc : List ExceptionLog) :
    generatePredictiveAlerts now (l.map stdLog) exc = generatePredictiveAlerts now l exc := by
  have hbody : (fun imei => alertsForDevice now imei
        ((l.map stdLog).filter (fun x => x.deviceImei = imei))
        (exc.filter (fun x => x.deviceImei = imei))) =
      (fun imei => alertsForDevice now imei
        (l.filter (fun x => x.deviceImei = imei))
        (exc.filter (fun x => x.deviceImei = imei))) := by
    funext k
    rw [filter_imei_map_std, alertsForDevice_map_std]
  unfold generatePredictiveAlerts
  rw [deviceKeys_map_std, hbody]

/-- C10: every voltage-consuming computation — health scoring, performance
metrics (average voltage), voltage-drop anomaly detection and battery-failure
prediction — selects readings by truthiness of the voltage field, so two
ignition-log lists that agree after canonicalizing non-truthy voltages
(`none` vs `some 0`, in either direction) produce identical outputs from all
four functions. -/
theorem claim_C10_theorem (now : Int) (imei : String) (ign1 ign2 : List IgnitionLog)
    (exc : List ExceptionLog) (h : ign1.map stdLog = ign2.map stdLog) :
    calculateDeviceHealthScore now imei ign1 exc =
        calculateDeviceHealthScore now imei ign2 exc ∧
      calculateDevicePerformanceMetrics now imei ign1 exc =
        calculateDevicePerformanceMetrics now imei ign2 exc ∧
      detectAnomalies now ign1 exc = detectAnomalies now ign2 exc ∧
      generatePredictiveAlerts now ign1 exc = generatePredictiveAlerts now ign2 exc := by
  refine ⟨?_, ?_, ?_, ?_⟩
  · rw [← healthScore_map_std now imei ign1 exc, h, healthScore_map_std]
  · rw [← perfMetrics_map_std now imei ign1 exc, h, perfMetrics_map_std]
  · rw [← detectAnomalies_map_std now ign1 exc, h, detectAnomalies_map_std]
  · rw [← generatePredictiveAlerts_map_std now ign1 exc, h, generatePredictiveAlerts_map_std]

/-- C10, witness: replacing an absent voltage by an explicit 0 leaves the
health score unchanged. -/
theorem claim_C10_witness :
    (([IgnitionLog.mk "A" 0 none]).map stdLog =
      ([IgnitionLog.mk "A" 0 (some 0)]).map stdLog) ∧
      calculateDeviceHealthScore 0 "A" [IgnitionLog.mk "A" 0 none] [] =
        calculateDeviceHealthScore 0 "A" [IgnitionLog.mk "A" 0 (some 0)] [] :=
  ⟨by decide,
    (claim_C10_theorem 0 "A" [IgnitionLog.mk "A" 0 none] [IgnitionLog.mk "A" 0 (some 0)]
      [] (by decide)).1⟩
